import Mathlib

/-!
# Verification of the `planar` strongly-typed planar geometry library

A shallow embedding of the library's source (src/oned.rs, src/twod.rs,
src/transform.rs) in Lean 4, together with theorems settling the frozen
claims about its specification.

The Rust types are generic over a numeric representation `T` and an opaque
unit tag `Unit` (and, for one-dimensional kinds, an implicit axis).  The
embedding keeps both parameters: each scalar kind is a one-field structure
over a representation type `α` and a phantom unit-tag type `U`.  Rust's
operator impls, which are macro-generated uniformly for the six kinds, become
plain functions named after the trait methods they embed (`add`, `sub`,
`mul`, `add_assign`, ...).  The heterogeneous representation genericity of
the Rust operators (`T op V -> W`) is specialised to a single representation
`α`; the claims under verification all quantify over one exact
representation at a time.
-/

namespace Planar

/-- `Length<T, Unit>` from src/oned.rs: a generic (axis-free) length. -/
structure Length (α : Type) (U : Type) where
  val : α
  deriving DecidableEq

/-- `Width<T, Unit>` from src/oned.rs: a horizontal length. -/
structure Width (α : Type) (U : Type) where
  val : α
  deriving DecidableEq

/-- `Height<T, Unit>` from src/oned.rs: a vertical length. -/
structure Height (α : Type) (U : Type) where
  val : α
  deriving DecidableEq

/-- `Position<T, Unit>` from src/oned.rs: a generic absolute position. -/
structure Position (α : Type) (U : Type) where
  val : α
  deriving DecidableEq

/-- `PosX<T, Unit>` from src/oned.rs: a horizontal absolute position. -/
structure PosX (α : Type) (U : Type) where
  val : α
  deriving DecidableEq

/-- `PosY<T, Unit>` from src/oned.rs: a vertical absolute position. -/
structure PosY (α : Type) (U : Type) where
  val : α
  deriving DecidableEq

/- Constructors and accessors (`new`, `get`, `into_inner`) for each kind,
   from the impl_oned macro in src/oned.rs. `get` clones the inner value and
   `into_inner` consumes the wrapper; in the embedding both project `val`. -/

def Length.new {α U : Type} (x : α) : Length α U := ⟨x⟩

def Length.get {α U : Type} (a : Length α U) : α := a.val

def Length.into_inner {α U : Type} (a : Length α U) : α := a.val

def Width.new {α U : Type} (x : α) : Width α U := ⟨x⟩

def Width.get {α U : Type} (a : Width α U) : α := a.val

def Width.into_inner {α U : Type} (a : Width α U) : α := a.val

def Height.new {α U : Type} (x : α) : Height α U := ⟨x⟩

def Height.get {α U : Type} (a : Height α U) : α := a.val

def Height.into_inner {α U : Type} (a : Height α U) : α := a.val

def Position.new {α U : Type} (x : α) : Position α U := ⟨x⟩

def Position.get {α U : Type} (a : Position α U) : α := a.val

def Position.into_inner {α U : Type} (a : Position α U) : α := a.val

def PosX.new {α U : Type} (x : α) : PosX α U := ⟨x⟩

def PosX.get {α U : Type} (a : PosX α U) : α := a.val

def PosX.into_inner {α U : Type} (a : PosX α U) : α := a.val

def PosY.new {α U : Type} (x : α) : PosY α U := ⟨x⟩

def PosY.get {α U : Type} (a : PosY α U) : α := a.val

def PosY.into_inner {α U : Type} (a : PosY α U) : α := a.val

/- Scalar multiplication and division by a plain numeric factor, and the
   in-place variants, from the impl_oned macro (src/oned.rs lines 40-64). -/

def Length.mul {α U : Type} [Mul α] (a : Length α U) (scale : α) : Length α U :=
  Length.new (a.into_inner * scale)

def Length.div {α U : Type} [Div α] (a : Length α U) (scale : α) : Length α U :=
  Length.new (a.into_inner / scale)

def Length.mul_assign {α U : Type} [Mul α] (a : Length α U) (scale : α) : Length α U :=
  ⟨a.val * scale⟩

def Length.div_assign {α U : Type} [Div α] (a : Length α U) (scale : α) : Length α U :=
  ⟨a.val / scale⟩

def Width.mul {α U : Type} [Mul α] (a : Width α U) (scale : α) : Width α U :=
  Width.new (a.into_inner * scale)

def Width.div {α U : Type} [Div α] (a : Width α U) (scale : α) : Width α U :=
  Width.new (a.into_inner / scale)

def Width.mul_assign {α U : Type} [Mul α] (a : Width α U) (scale : α) : Width α U :=
  ⟨a.val * scale⟩

def Width.div_assign {α U : Type} [Div α] (a : Width α U) (scale : α) : Width α U :=
  ⟨a.val / scale⟩

def Height.mul {α U : Type} [Mul α] (a : Height α U) (scale : α) : Height α U :=
  Height.new (a.into_inner * scale)

def Height.div {α U : Type} [Div α] (a : Height α U) (scale : α) : Height α U :=
  Height.new (a.into_inner / scale)

def Height.mul_assign {α U : Type} [Mul α] (a : Height α U) (scale : α) : Height α U :=
  ⟨a.val * scale⟩

def Height.div_assign {α U : Type} [Div α] (a : Height α U) (scale : α) : Height α U :=
  ⟨a.val / scale⟩

def Position.mul {α U : Type} [Mul α] (a : Position α U) (scale : α) : Position α U :=
  Position.new (a.into_inner * scale)

def Position.div {α U : Type} [Div α] (a : Position α U) (scale : α) : Position α U :=
  Position.new (a.into_inner / scale)

def Position.mul_assign {α U : Type} [Mul α] (a : Position α U) (scale : α) : Position α U :=
  ⟨a.val * scale⟩

def Position.div_assign {α U : Type} [Div α] (a : Position α U) (scale : α) : Position α U :=
  ⟨a.val / scale⟩

def PosX.mul {α U : Type} [Mul α] (a : PosX α U) (scale : α) : PosX α U :=
  PosX.new (a.into_inner * scale)

def PosX.div {α U : Type} [Div α] (a : PosX α U) (scale : α) : PosX α U :=
  PosX.new (a.into_inner / scale)

def PosX.mul_assign {α U : Type} [Mul α] (a : PosX α U) (scale : α) : PosX α U :=
  ⟨a.val * scale⟩

def PosX.div_assign {α U : Type} [Div α] (a : PosX α U) (scale : α) : PosX α U :=
  ⟨a.val / scale⟩

def PosY.mul {α U : Type} [Mul α] (a : PosY α U) (scale : α) : PosY α U :=
  PosY.new (a.into_inner * scale)

def PosY.div {α U : Type} [Div α] (a : PosY α U) (scale : α) : PosY α U :=
  PosY.new (a.into_inner / scale)

def PosY.mul_assign {α U : Type} [Mul α] (a : PosY α U) (scale : α) : PosY α U :=
  ⟨a.val * scale⟩

def PosY.div_assign {α U : Type} [Div α] (a : PosY α U) (scale : α) : PosY α U :=
  ⟨a.val / scale⟩

/- Negation, from the impl_oned macro (src/oned.rs lines 66-71). -/

def Length.neg {α U : Type} [Neg α] (a : Length α U) : Length α U :=
  Length.new (-a.into_inner)

def Position.neg {α U : Type} [Neg α] (a : Position α U) : Position α U :=
  Position.new (-a.into_inner)

/- Equality and ordering, from the impl_oned macro (src/oned.rs lines
   73-91): `PartialEq` compares the inner values, `Ord::cmp` delegates to
   the inner values' `cmp`. The `eqv` functions embed the generated
   `PartialEq::eq`, the `cmp` functions the generated `Ord::cmp`. -/

def Length.eqv {α U : Type} (a b : Length α U) : Prop := a.val = b.val

def Length.cmp {α U : Type} [LinearOrder α] (a b : Length α U) : Ordering :=
  compare a.val b.val

def Width.eqv {α U : Type} (a b : Width α U) : Prop := a.val = b.val

def Width.cmp {α U : Type} [LinearOrder α] (a b : Width α U) : Ordering :=
  compare a.val b.val

def Height.eqv {α U : Type} (a b : Height α U) : Prop := a.val = b.val

def Height.cmp {α U : Type} [LinearOrder α] (a b : Height α U) : Ordering :=
  compare a.val b.val

def Position.eqv {α U : Type} (a b : Position α U) : Prop := a.val = b.val

def Position.cmp {α U : Type} [LinearOrder α] (a b : Position α U) : Ordering :=
  compare a.val b.val

def PosX.eqv {α U : Type} (a b : PosX α U) : Prop := a.val = b.val

def PosX.cmp {α U : Type} [LinearOrder α] (a b : PosX α U) : Ordering :=
  compare a.val b.val

def PosY.eqv {α U : Type} (a b : PosY α U) : Prop := a.val = b.val

def PosY.cmp {α U : Type} [LinearOrder α] (a b : PosY α U) : Ordering :=
  compare a.val b.val

/- Addition and subtraction within the length/position algebra, from the
   impl_oned_add macro (src/oned.rs lines 113-175), instantiated at
   (Length, Position), (Width, PosX), (Height, PosY):
   length + length = length, position + length = position,
   length - length = length, position - length = position,
   position - position = length, plus the in-place variants. -/

def Length.add {α U : Type} [Add α] (a b : Length α U) : Length α U :=
  Length.new (a.into_inner + b.into_inner)

def Length.sub {α U : Type} [Sub α] (a b : Length α U) : Length α U :=
  Length.new (a.into_inner - b.into_inner)

def Length.add_assign {α U : Type} [Add α] (a b : Length α U) : Length α U :=
  ⟨a.val + b.into_inner⟩

def Length.sub_assign {α U : Type} [Sub α] (a b : Length α U) : Length α U :=
  ⟨a.val - b.into_inner⟩

def Position.add_length {α U : Type} [Add α] (a : Position α U) (b : Length α U) :
    Position α U :=
  Position.new (a.into_inner + b.into_inner)

def Position.sub_length {α U : Type} [Sub α] (a : Position α U) (b : Length α U) :
    Position α U :=
  Position.new (a.into_inner - b.into_inner)

def Position.sub {α U : Type} [Sub α] (a b : Position α U) : Length α U :=
  Length.new (a.into_inner - b.into_inner)

def Position.add_assign {α U : Type} [Add α] (a : Position α U) (b : Length α U) :
    Position α U :=
  ⟨a.val + b.into_inner⟩

def Position.sub_assign {α U : Type} [Sub α] (a : Position α U) (b : Length α U) :
    Position α U :=
  ⟨a.val - b.into_inner⟩

def Width.add {α U : Type} [Add α] (a b : Width α U) : Width α U :=
  Width.new (a.into_inner + b.into_inner)

def Width.sub {α U : Type} [Sub α] (a b : Width α U) : Width α U :=
  Width.new (a.into_inner - b.into_inner)

def Width.add_assign {α U : Type} [Add α] (a b : Width α U) : Width α U :=
  ⟨a.val + b.into_inner⟩

def Width.sub_assign {α U : Type} [Sub α] (a b : Width α U) : Width α U :=
  ⟨a.val - b.into_inner⟩

def PosX.add_width {α U : Type} [Add α] (a : PosX α U) (b : Width α U) : PosX α U :=
  PosX.new (a.into_inner + b.into_inner)

def PosX.sub_width {α U : Type} [Sub α] (a : PosX α U) (b : Width α U) : PosX α U :=
  PosX.new (a.into_inner - b.into_inner)

def PosX.sub {α U : Type} [Sub α] (a b : PosX α U) : Width α U :=
  Width.new (a.into_inner - b.into_inner)

def PosX.add_assign {α U : Type} [Add α] (a : PosX α U) (b : Width α U) : PosX α U :=
  ⟨a.val + b.into_inner⟩

def PosX.sub_assign {α U : Type} [Sub α] (a : PosX α U) (b : Width α U) : PosX α U :=
  ⟨a.val - b.into_inner⟩

def Height.add {α U : Type} [Add α] (a b : Height α U) : Height α U :=
  Height.new (a.into_inner + b.into_inner)

def Height.sub {α U : Type} [Sub α] (a b : Height α U) : Height α U :=
  Height.new (a.into_inner - b.into_inner)

def Height.add_assign {α U : Type} [Add α] (a b : Height α U) : Height α U :=
  ⟨a.val + b.into_inner⟩

def Height.sub_assign {α U : Type} [Sub α] (a b : Height α U) : Height α U :=
  ⟨a.val - b.into_inner⟩

def PosY.add_height {α U : Type} [Add α] (a : PosY α U) (b : Height α U) : PosY α U :=
  PosY.new (a.into_inner + b.into_inner)

def PosY.sub_height {α U : Type} [Sub α] (a : PosY α U) (b : Height α U) : PosY α U :=
  PosY.new (a.into_inner - b.into_inner)

def PosY.sub {α U : Type} [Sub α] (a b : PosY α U) : Height α U :=
  Height.new (a.into_inner - b.into_inner)

def PosY.add_assign {α U : Type} [Add α] (a : PosY α U) (b : Height α U) : PosY α U :=
  ⟨a.val + b.into_inner⟩

def PosY.sub_assign {α U : Type} [Sub α] (a : PosY α U) (b : Height α U) : PosY α U :=
  ⟨a.val - b.into_inner⟩

/-! ## Two-dimensional composites (src/twod.rs) -/

/-- `Size<T, Unit>` from src/twod.rs: a width paired with a height. -/
structure Size (α : Type) (U : Type) where
  width : Width α U
  height : Height α U
  deriving DecidableEq

/-- `Point<T, Unit>` from src/twod.rs: an x position paired with a y position. -/
structure Point (α : Type) (U : Type) where
  x : PosX α U
  y : PosY α U
  deriving DecidableEq

/- Mixed-axis operations, from the impl_twod_add_width_height macro
   (src/twod.rs lines 89-154), instantiated at Size and Point: adding or
   subtracting a Width touches only the x/width component, adding or
   subtracting a Height touches only the y/height component. -/

def Size.add_width {α U : Type} [Add α] (s : Size α U) (other : Width α U) : Size α U :=
  { width := s.width.add other, height := s.height }

def Size.add_height {α U : Type} [Add α] (s : Size α U) (other : Height α U) : Size α U :=
  { width := s.width, height := s.height.add other }

def Size.sub_width {α U : Type} [Sub α] (s : Size α U) (other : Width α U) : Size α U :=
  { width := s.width.sub other, height := s.height }

def Size.sub_height {α U : Type} [Sub α] (s : Size α U) (other : Height α U) : Size α U :=
  { width := s.width, height := s.height.sub other }

def Point.add_width {α U : Type} [Add α] (p : Point α U) (other : Width α U) : Point α U :=
  { x := p.x.add_width other, y := p.y }

def Point.add_height {α U : Type} [Add α] (p : Point α U) (other : Height α U) : Point α U :=
  { x := p.x, y := p.y.add_height other }

def Point.sub_width {α U : Type} [Sub α] (p : Point α U) (other : Width α U) : Point α U :=
  { x := p.x.sub_width other, y := p.y }

def Point.sub_height {α U : Type} [Sub α] (p : Point α U) (other : Height α U) : Point α U :=
  { x := p.x, y := p.y.sub_height other }

/- Component-wise algebra, from the impl_twod_add macro (src/twod.rs lines
   163-244), instantiated at (Size, Point): Size ± Size = Size,
   Point ± Size = Point, Point - Point = Size. -/

def Size.add {α U : Type} [Add α] (a b : Size α U) : Size α U :=
  { width := a.width.add b.width, height := a.height.add b.height }

def Size.sub {α U : Type} [Sub α] (a b : Size α U) : Size α U :=
  { width := a.width.sub b.width, height := a.height.sub b.height }

def Point.add_size {α U : Type} [Add α] (p : Point α U) (other : Size α U) : Point α U :=
  { x := p.x.add_width other.width, y := p.y.add_height other.height }

def Point.sub_size {α U : Type} [Sub α] (p : Point α U) (other : Size α U) : Point α U :=
  { x := p.x.sub_width other.width, y := p.y.sub_height other.height }

def Point.sub {α U : Type} [Sub α] (p other : Point α U) : Size α U :=
  { width := p.x.sub other.x, height := p.y.sub other.y }

/-- `Rect<T, Unit>` from src/twod.rs: an origin point and a size. -/
structure Rect (α : Type) (U : Type) where
  origin : Point α U
  size : Size α U
  deriving DecidableEq

/-- `Rect::new(origin, size)` (src/twod.rs lines 254-256). -/
def Rect.new {α U : Type} (origin : Point α U) (size : Size α U) : Rect α U :=
  { origin, size }

/-- `Rect::from_points(origin, opposite)` (src/twod.rs lines 258-265):
the size is `opposite - origin`, the origin is stored unchanged. -/
def Rect.from_points {α U : Type} [Sub α] (origin opposite : Point α U) : Rect α U :=
  let size := opposite.sub origin
  { size, origin }

/-- `Rect::corner()` (src/twod.rs lines 267-272): `origin + size`. -/
def Rect.corner {α U : Type} [Add α] (r : Rect α U) : Point α U :=
  r.origin.add_size r.size

/-! ## The transform layer (src/transform.rs)

The Rust trait `AxisAlignedTransform` (the rich capability) has four
required methods and three default methods (`transform_size`,
`transform_rect`, `transform_point`); an implementor may override the
defaults.  The embedding records all seven methods in one structure, so
that an override (as `AxisAlignedMatrixTransform` performs for
`transform_point` and `transform_size`) is represented faithfully;
`AxisAlignedTransform.mkDefaults` builds the structure from the four
required methods with the trait's default bodies (src/transform.rs lines
17-36).  Rust's default `transform_rect` calls `self.transform_point` and
`self.transform_size`, which dispatch to the implementor's overrides; each
concrete transform's embedding below reproduces that dispatch. -/

/-- The narrow capability: the Rust trait `Transform` (src/transform.rs
lines 39-44), which only maps points. -/
structure Transform (α U β V : Type) where
  transform_point : Point α U → Point β V

/-- The rich capability: the Rust trait `AxisAlignedTransform`
(src/transform.rs lines 7-37), with all seven methods recorded. -/
structure AxisAlignedTransform (α U β V : Type) where
  transform_position_x : PosX α U → PosX β V
  transform_position_y : PosY α U → PosY β V
  transform_width : Width α U → Width β V
  transform_height : Height α U → Height β V
  transform_size : Size α U → Size β V
  transform_rect : Rect α U → Rect β V
  transform_point : Point α U → Point β V

/-- Builds the rich capability from the four required methods using the
trait's default bodies (src/transform.rs lines 17-36): the size combines
transformed width and height, the point combines transformed x and y, the
rect transforms origin point and size. -/
def AxisAlignedTransform.mkDefaults {α U β V : Type}
    (fx : PosX α U → PosX β V) (fy : PosY α U → PosY β V)
    (fw : Width α U → Width β V) (fh : Height α U → Height β V) :
    AxisAlignedTransform α U β V :=
  let fp : Point α U → Point β V := fun p => { x := fx p.x, y := fy p.y }
  let fs : Size α U → Size β V := fun s => { width := fw s.width, height := fh s.height }
  { transform_position_x := fx
    transform_position_y := fy
    transform_width := fw
    transform_height := fh
    transform_size := fs
    transform_rect := fun r => { origin := fp r.origin, size := fs r.size }
    transform_point := fp }

/-- The blanket `impl Transform for AxisAlignedTransform` (src/transform.rs
lines 46-57): the narrow point transform is rebuilt from the two position
primitives. -/
def AxisAlignedTransform.toTransform {α U β V : Type}
    (t : AxisAlignedTransform α U β V) : Transform α U β V :=
  { transform_point := fun p =>
      { x := t.transform_position_x p.x, y := t.transform_position_y p.y } }

/-- `IdentityTransform` (src/transform.rs lines 59-79) holds no data; its
four primitives convert the representation via `Into::into` and re-tag the
unit.  The conversion function `f` stands for `Into::into : T -> W`. -/
def IdentityTransform.toAxisAligned {α U β V : Type} (f : α → β) :
    AxisAlignedTransform α U β V :=
  AxisAlignedTransform.mkDefaults
    (fun x => PosX.new (f x.into_inner))
    (fun y => PosY.new (f y.into_inner))
    (fun w => Width.new (f w.into_inner))
    (fun h => Height.new (f h.into_inner))

/-- `Translation<T, Unit>` (src/transform.rs line 81): a transform holding
an offset `Size`. -/
structure Translation (α : Type) (U : Type) where
  offset : Size α U

/-- The `AxisAlignedTransform` impl for `Translation` (src/transform.rs
lines 83-100): positions are shifted by the offset (via `Point + Size`
component addition), widths and heights are returned unchanged. -/
def Translation.toAxisAligned {α U : Type} [Add α] (t : Translation α U) :
    AxisAlignedTransform α U α U :=
  AxisAlignedTransform.mkDefaults
    (fun x => x.add_width t.offset.width)
    (fun y => y.add_height t.offset.height)
    (fun w => w)
    (fun h => h)

/-- `ScaleFactor` (src/transform.rs lines 102-105): a transform holding a
single scalar factor. -/
structure ScaleFactor (α : Type) (U V : Type) where
  factor : α

/-- The `AxisAlignedTransform` impl for `ScaleFactor` (src/transform.rs
lines 107-125): every primitive multiplies the inner value by the factor. -/
def ScaleFactor.toAxisAligned {α : Type} {U V : Type} [Mul α]
    (t : ScaleFactor α U V) : AxisAlignedTransform α U α V :=
  AxisAlignedTransform.mkDefaults
    (fun x => PosX.new (x.into_inner * t.factor))
    (fun y => PosY.new (y.into_inner * t.factor))
    (fun w => Width.new (w.into_inner * t.factor))
    (fun h => Height.new (h.into_inner * t.factor))

/-- `MatrixTransform<T, UnitFrom, UnitTo>` (src/transform.rs line 127):
six coefficients `[T; 6]`; the field `mI` embeds `self.0[I]`. -/
structure MatrixTransform (α : Type) (U V : Type) where
  m0 : α
  m1 : α
  m2 : α
  m3 : α
  m4 : α
  m5 : α
  deriving DecidableEq

/-- `MatrixTransform::new(data)` (src/transform.rs lines 130-133), the
array `[a, b, c, d, e, f]` given element-wise. -/
def MatrixTransform.new {α : Type} {U V : Type} (a b c d e f : α) :
    MatrixTransform α U V :=
  ⟨a, b, c, d, e, f⟩

/-- The narrow `Transform` impl for `MatrixTransform` (src/transform.rs
lines 140-158): `x' = x*m[0] + y*m[2] + m[4]`, `y' = x*m[1] + y*m[3] + m[5]`.
No width/height mapping exists: `MatrixTransform` implements only the
narrow capability, so this is its entire transform surface. -/
def MatrixTransform.toTransform {α : Type} {U V : Type} [Add α] [Mul α]
    (m : MatrixTransform α U V) : Transform α U α V :=
  { transform_point := fun p =>
      { x := PosX.new (p.x.get * m.m0 + p.y.get * m.m2 + m.m4)
        y := PosY.new (p.x.get * m.m1 + p.y.get * m.m3 + m.m5) } }

/-- `AxisAlignedMatrixTransform` (src/transform.rs lines 160-166): per-axis
scales (fields `.0`, `.1`) and translations (fields `.2`, `.3`), named here
as in `new` (src/transform.rs line 209). -/
structure AxisAlignedMatrixTransform (α : Type) (U V : Type) where
  scale_x : α
  scale_y : α
  translate_x : α
  translate_y : α
  deriving DecidableEq

/-- `AxisAlignedMatrixTransform::new` (src/transform.rs lines 209-211). -/
def AxisAlignedMatrixTransform.new {α : Type} {U V : Type}
    (scale_x scale_y translate_x translate_y : α) :
    AxisAlignedMatrixTransform α U V :=
  ⟨scale_x, scale_y, translate_x, translate_y⟩

/-- The `AxisAlignedTransform` impl for `AxisAlignedMatrixTransform`
(src/transform.rs lines 168-206): positions map by `v * scale + translate`,
lengths by `v * scale`; `transform_point` and `transform_size` are
overridden (lines 193-205) rather than inherited, and the inherited default
`transform_rect` dispatches to those overrides. -/
def AxisAlignedMatrixTransform.toAxisAligned {α : Type} {U V : Type}
    [Add α] [Mul α] (m : AxisAlignedMatrixTransform α U V) :
    AxisAlignedTransform α U α V :=
  let fp : Point α U → Point α V := fun p =>
    { x := PosX.new (p.x.into_inner * m.scale_x + m.translate_x)
      y := PosY.new (p.y.into_inner * m.scale_y + m.translate_y) }
  let fs : Size α U → Size α V := fun s =>
    { width := Width.new (s.width.into_inner * m.scale_x)
      height := Height.new (s.height.into_inner * m.scale_y) }
  { transform_position_x := fun x => PosX.new (x.into_inner * m.scale_x + m.translate_x)
    transform_position_y := fun y => PosY.new (y.into_inner * m.scale_y + m.translate_y)
    transform_width := fun w => Width.new (w.into_inner * m.scale_x)
    transform_height := fun h => Height.new (h.into_inner * m.scale_y)
    transform_size := fs
    transform_rect := fun r => { origin := fp r.origin, size := fs r.size }
    transform_point := fp }

/-- `AxisAlignedMatrixTransform::from_rects` (src/transform.rs lines
213-226): scales are the ratios of the sizes, translations are
`to.origin - from.origin * scale`. -/
def AxisAlignedMatrixTransform.from_rects {α : Type} {U V : Type}
    [Mul α] [Div α] [Sub α] (fr : Rect α U) (tg : Rect α V) :
    AxisAlignedMatrixTransform α U V :=
  let scale_x := tg.size.width.into_inner / fr.size.width.into_inner
  let scale_y := tg.size.height.into_inner / fr.size.height.into_inner
  let translate_x := tg.origin.x.into_inner - fr.origin.x.into_inner * scale_x
  let translate_y := tg.origin.y.into_inner - fr.origin.y.into_inner * scale_y
  AxisAlignedMatrixTransform.new scale_x scale_y translate_x translate_y

/-! ## Sample values used by the witnesses -/

/-- The spec's example source rectangle: origin (0,0), size (10,20). -/
def exampleFrom : Rect ℚ Unit :=
  Rect.new (Point.mk (PosX.new 0) (PosY.new 0)) (Size.mk (Width.new 10) (Height.new 20))

/-- The spec's example target rectangle: origin (100,100), size (50,200). -/
def exampleTo : Rect ℚ Bool :=
  Rect.new (Point.mk (PosX.new 100) (PosY.new 100)) (Size.mk (Width.new 50) (Height.new 200))

/-- A sample translation by (3,5) over ℚ. -/
def exampleTranslation : Translation ℚ Unit :=
  ⟨Size.mk (Width.new 3) (Height.new 5)⟩

/-- A sample scale by 2 over ℚ. -/
def exampleScale : ScaleFactor ℚ Unit Bool :=
  ⟨2⟩

/-- A sample axis-aligned matrix transform over ℚ. -/
def exampleAAMT : AxisAlignedMatrixTransform ℚ Unit Bool :=
  AxisAlignedMatrixTransform.new 2 3 7 11

/-- A sample rectangle over ℚ: origin (1,2), size (4,6). -/
def exampleRect : Rect ℚ Unit :=
  Rect.new (Point.mk (PosX.new 1) (PosY.new 2)) (Size.mk (Width.new 4) (Height.new 6))

/-- The identity conversion on ℚ, standing for `Into::into` where `T = W`. -/
def idConv : ℚ → ℚ := fun a => a

end Planar

attribute [ext] Planar.Length Planar.Width Planar.Height Planar.Position
attribute [ext] Planar.PosX Planar.PosY Planar.Size Planar.Point Planar.Rect

namespace Planar

/-! ## Theorems settling the claims -/

/-- C1: `AxisAlignedMatrixTransform::from_rects(from, to)`, over an exact
numeric representation with `from` of non-zero width and height, has
`scale_x = to.width / from.width`, `scale_y = to.height / from.height`,
`translate_x = to.x - from.x * scale_x`, `translate_y = to.y - from.y *
scale_y`, and its `transform_point` maps `from.origin` exactly to
`to.origin` and `from.corner()` exactly to `to.corner()`. -/
theorem from_rects_maps_rect_exactly {α : Type} [Field α] {U V : Type}
    (fr : Rect α U) (tg : Rect α V)
    (hw : fr.size.width.val ≠ 0) (hh : fr.size.height.val ≠ 0) :
    (AxisAlignedMatrixTransform.from_rects fr tg).scale_x
        = tg.size.width.val / fr.size.width.val ∧
    (AxisAlignedMatrixTransform.from_rects fr tg).scale_y
        = tg.size.height.val / fr.size.height.val ∧
    (AxisAlignedMatrixTransform.from_rects fr tg).translate_x
        = tg.origin.x.val - fr.origin.x.val * (tg.size.width.val / fr.size.width.val) ∧
    (AxisAlignedMatrixTransform.from_rects fr tg).translate_y
        = tg.origin.y.val - fr.origin.y.val * (tg.size.height.val / fr.size.height.val) ∧
    (AxisAlignedMatrixTransform.from_rects fr tg).toAxisAligned.transform_point fr.origin
        = tg.origin ∧
    (AxisAlignedMatrixTransform.from_rects fr tg).toAxisAligned.transform_point fr.corner
        = tg.corner := by
  refine ⟨rfl, rfl, rfl, rfl, ?_, ?_⟩
  · ext
    · simp only [AxisAlignedMatrixTransform.toAxisAligned,
        AxisAlignedMatrixTransform.from_rects, AxisAlignedMatrixTransform.new,
        PosX.new, PosX.into_inner, Width.into_inner, Height.into_inner,
        PosY.into_inner]
      ring
    · simp only [AxisAlignedMatrixTransform.toAxisAligned,
        AxisAlignedMatrixTransform.from_rects, AxisAlignedMatrixTransform.new,
        PosY.new, PosX.into_inner, Width.into_inner, Height.into_inner,
        PosY.into_inner]
      ring
  · ext
    · simp only [AxisAlignedMatrixTransform.toAxisAligned,
        AxisAlignedMatrixTransform.from_rects, AxisAlignedMatrixTransform.new,
        Rect.corner, Point.add_size, PosX.add_width, PosY.add_height,
        PosX.new, PosY.new, PosX.into_inner, PosY.into_inner,
        Width.into_inner, Height.into_inner]
      field_simp
      ring
    · simp only [AxisAlignedMatrixTransform.toAxisAligned,
        AxisAlignedMatrixTransform.from_rects, AxisAlignedMatrixTransform.new,
        Rect.corner, Point.add_size, PosX.add_width, PosY.add_height,
        PosX.new, PosY.new, PosX.into_inner, PosY.into_inner,
        Width.into_inner, Height.into_inner]
      field_simp
      ring

/-- C1 witness: the spec's concrete example, `from = Rect((0,0),(10,20))`,
`to = Rect((100,100),(50,200))` over ℚ: the derived transform maps (0,0) to
(100,100) and the corner (10,20) to (150,300). -/
theorem from_rects_maps_rect_exactly_witness :
    exampleFrom.size.width.val ≠ 0 ∧
    exampleFrom.size.height.val ≠ 0 ∧
    exampleFrom.corner = Point.mk (PosX.new 10) (PosY.new 20) ∧
    exampleTo.corner = Point.mk (PosX.new 150) (PosY.new 300) ∧
    (AxisAlignedMatrixTransform.from_rects exampleFrom exampleTo).toAxisAligned.transform_point
        exampleFrom.origin = exampleTo.origin ∧
    (AxisAlignedMatrixTransform.from_rects exampleFrom exampleTo).toAxisAligned.transform_point
        exampleFrom.corner = exampleTo.corner := by
  have hw : exampleFrom.size.width.val ≠ 0 := by norm_num [exampleFrom, Rect.new, Width.new]
  have hh : exampleFrom.size.height.val ≠ 0 := by norm_num [exampleFrom, Rect.new, Height.new]
  have h := from_rects_maps_rect_exactly exampleFrom exampleTo hw hh
  refine ⟨hw, hh, ?_, ?_, h.2.2.2.2.1, h.2.2.2.2.2⟩
  · ext
    · simp [exampleFrom, Rect.new, Rect.corner, Point.add_size, PosX.add_width,
        PosX.new, PosY.new, Width.new, Height.new, PosX.into_inner, Width.into_inner]
    · simp [exampleFrom, Rect.new, Rect.corner, Point.add_size, PosY.add_height,
        PosX.new, PosY.new, Width.new, Height.new, PosY.into_inner, Height.into_inner]
  · ext
    · simp [exampleTo, Rect.new, Rect.corner, Point.add_size, PosX.add_width,
        PosX.new, PosY.new, Width.new, Height.new, PosX.into_inner, Width.into_inner]
      norm_num
    · simp [exampleTo, Rect.new, Rect.corner, Point.add_size, PosY.add_height,
        PosX.new, PosY.new, Width.new, Height.new, PosY.into_inner, Height.into_inner]
      norm_num

/-- C2: the rich capability's composite operations are exactly the derived
defaults built from the four scalar primitives: the default `transform_point`
combines the transformed x and y, the default `transform_size` combines the
transformed width and height, the default `transform_rect` transforms the
origin point and the size; `AxisAlignedMatrixTransform`'s own overriding
`transform_point` and `transform_size` agree with those defaults, and the
blanket narrow-capability impl has the same `transform_point` behaviour, in
particular for every default-built transform and for
`AxisAlignedMatrixTransform`. -/
theorem rich_capability_derived_defaults {α U β V : Type}
    (fx : PosX α U → PosX β V) (fy : PosY α U → PosY β V)
    (fw : Width α U → Width β V) (fh : Height α U → Height β V)
    (p : Point α U) (s : Size α U) (r : Rect α U)
    {γ W X : Type} [Mul γ] [Add γ] (m : AxisAlignedMatrixTransform γ W X)
    (q : Point γ W) (z : Size γ W) (e : Rect γ W)
    (t : AxisAlignedTransform α U β V) :
    (AxisAlignedTransform.mkDefaults fx fy fw fh).transform_point p
        = Point.mk (fx p.x) (fy p.y) ∧
    (AxisAlignedTransform.mkDefaults fx fy fw fh).transform_size s
        = Size.mk (fw s.width) (fh s.height) ∧
    (AxisAlignedTransform.mkDefaults fx fy fw fh).transform_rect r
        = Rect.mk ((AxisAlignedTransform.mkDefaults fx fy fw fh).transform_point r.origin)
            ((AxisAlignedTransform.mkDefaults fx fy fw fh).transform_size r.size) ∧
    m.toAxisAligned.transform_point q
        = Point.mk (m.toAxisAligned.transform_position_x q.x)
            (m.toAxisAligned.transform_position_y q.y) ∧
    m.toAxisAligned.transform_size z
        = Size.mk (m.toAxisAligned.transform_width z.width)
            (m.toAxisAligned.transform_height z.height) ∧
    m.toAxisAligned.transform_rect e
        = Rect.mk (m.toAxisAligned.transform_point e.origin)
            (m.toAxisAligned.transform_size e.size) ∧
    t.toTransform.transform_point p
        = Point.mk (t.transform_position_x p.x) (t.transform_position_y p.y) ∧
    (AxisAlignedTransform.mkDefaults fx fy fw fh).toTransform.transform_point p
        = (AxisAlignedTransform.mkDefaults fx fy fw fh).transform_point p ∧
    m.toAxisAligned.toTransform.transform_point q
        = m.toAxisAligned.transform_point q :=
  ⟨rfl, rfl, rfl, rfl, rfl, rfl, rfl, rfl, rfl⟩

/-- C3: a `Translation` leaves every width and height unchanged and shifts
positions by the stored offset: `transform_position_x x = x + offset.width`
and `transform_position_y y = y + offset.height`. -/
theorem translation_moves_positions_fixes_lengths {α U : Type} [Add α]
    (t : Translation α U) (w : Width α U) (h : Height α U)
    (x : PosX α U) (y : PosY α U) :
    t.toAxisAligned.transform_width w = w ∧
    t.toAxisAligned.transform_height h = h ∧
    t.toAxisAligned.transform_position_x x = x.add_width t.offset.width ∧
    t.toAxisAligned.transform_position_y y = y.add_height t.offset.height ∧
    (t.toAxisAligned.transform_position_x x).val = x.val + t.offset.width.val ∧
    (t.toAxisAligned.transform_position_y y).val = y.val + t.offset.height.val :=
  ⟨rfl, rfl, rfl, rfl, rfl, rfl⟩

/-- C4: subtracting two positions of the same kind yields the corresponding
length kind (Position−Position=Length, PosX−PosX=Width, PosY−PosY=Height)
with inner value `p.get() - q.get()`, and adding that difference back to `q`
recovers `p`. -/
theorem position_sub_yields_length_inverting_add {α : Type} [AddCommGroup α]
    {U : Type} (p q : Position α U) (px qx : PosX α U) (py qy : PosY α U) :
    p.sub q = Length.new (p.get - q.get) ∧
    q.add_length (p.sub q) = p ∧
    px.sub qx = Width.new (px.get - qx.get) ∧
    qx.add_width (px.sub qx) = px ∧
    py.sub qy = Height.new (py.get - qy.get) ∧
    qy.add_height (py.sub qy) = py := by
  refine ⟨rfl, ?_, rfl, ?_, rfl, ?_⟩
  · ext
    simp only [Position.add_length, Position.sub, Position.new, Length.new,
      Position.into_inner, Length.into_inner]
    abel
  · ext
    simp only [PosX.add_width, PosX.sub, PosX.new, Width.new,
      PosX.into_inner, Width.into_inner]
    abel
  · ext
    simp only [PosY.add_height, PosY.sub, PosY.new, Height.new,
      PosY.into_inner, Height.into_inner]
    abel

/-- C5: `MatrixTransform` with coefficients `[a,b,c,d,e,f]` maps a point
`(x,y)` to `(a*x + c*y + e, b*x + d*y + f)`; it implements only the narrow
point capability (its embedding has no width/height mapping); in particular
`MatrixTransform([1,0,0,1,5,5])` maps `Point(2,3)` to `Point(7,8)`. -/
theorem matrix_transform_point_formula {α : Type} [CommRing α] {U V : Type}
    (m : MatrixTransform α U V) (p : Point α U) :
    m.toTransform.transform_point p
        = Point.mk (PosX.new (m.m0 * p.x.get + m.m2 * p.y.get + m.m4))
            (PosY.new (m.m1 * p.x.get + m.m3 * p.y.get + m.m5)) ∧
    (MatrixTransform.new 1 0 0 1 5 5 : MatrixTransform ℤ Unit Bool).toTransform.transform_point
        (Point.mk (PosX.new 2) (PosY.new 3))
        = Point.mk (PosX.new 7) (PosY.new 8) := by
  constructor
  · ext
    · simp only [MatrixTransform.toTransform, PosX.new, PosX.get, PosY.get]
      ring
    · simp only [MatrixTransform.toTransform, PosY.new, PosX.get, PosY.get]
      ring
  · decide

/-- C6: each in-place compound-assignment operator of the scalar layer
produces exactly the value of its binary counterpart, for all six scalar
kinds and all four operators (`+=`, `-=`, `*=`, `/=`). -/
theorem compound_assign_matches_binary {α U : Type}
    [Add α] [Sub α] [Mul α] [Div α]
    (a b : Length α U) (c d : Width α U) (e f : Height α U)
    (p : Position α U) (x : PosX α U) (y : PosY α U) (k : α) :
    a.add_assign b = a.add b ∧
    a.sub_assign b = a.sub b ∧
    a.mul_assign k = a.mul k ∧
    a.div_assign k = a.div k ∧
    c.add_assign d = c.add d ∧
    c.sub_assign d = c.sub d ∧
    c.mul_assign k = c.mul k ∧
    c.div_assign k = c.div k ∧
    e.add_assign f = e.add f ∧
    e.sub_assign f = e.sub f ∧
    e.mul_assign k = e.mul k ∧
    e.div_assign k = e.div k ∧
    p.add_assign b = p.add_length b ∧
    p.sub_assign b = p.sub_length b ∧
    p.mul_assign k = p.mul k ∧
    p.div_assign k = p.div k ∧
    x.add_assign d = x.add_width d ∧
    x.sub_assign d = x.sub_width d ∧
    x.mul_assign k = x.mul k ∧
    x.div_assign k = x.div k ∧
    y.add_assign f = y.add_height f ∧
    y.sub_assign f = y.sub_height f ∧
    y.mul_assign k = y.mul k ∧
    y.div_assign k = y.div k :=
  ⟨rfl, rfl, rfl, rfl, rfl, rfl, rfl, rfl, rfl, rfl, rfl, rfl,
   rfl, rfl, rfl, rfl, rfl, rfl, rfl, rfl, rfl, rfl, rfl, rfl⟩

/-- C7: adding a `Width` to a `Point` changes only the x component (to
`x + w`, the y component is returned unchanged); symmetrically a `Height`
changes only y, and the subtraction forms change only the matching axis; in
particular `Point(3,4) + Width(10) = Point(13,4)` over ℤ. -/
theorem point_plus_width_touches_only_x {α U : Type} [Add α] [Sub α]
    (p : Point α U) (w : Width α U) (h : Height α U) :
    p.add_width w = Point.mk (p.x.add_width w) p.y ∧
    (p.add_width w).y = p.y ∧
    (p.add_width w).x.val = p.x.val + w.val ∧
    p.add_height h = Point.mk p.x (p.y.add_height h) ∧
    (p.add_height h).x = p.x ∧
    (p.add_height h).y.val = p.y.val + h.val ∧
    p.sub_width w = Point.mk (p.x.sub_width w) p.y ∧
    (p.sub_width w).y = p.y ∧
    p.sub_height h = Point.mk p.x (p.y.sub_height h) ∧
    (p.sub_height h).x = p.x ∧
    (Point.mk (PosX.new 3) (PosY.new 4) : Point ℤ Unit).add_width (Width.new 10)
        = Point.mk (PosX.new 13) (PosY.new 4) :=
  ⟨rfl, rfl, rfl, rfl, rfl, rfl, rfl, rfl, rfl, rfl, by decide⟩

/-- C8: for each of the six scalar kinds, equality holds exactly when the
inner numeric values are equal (both the generated `PartialEq` and
structural equality), `cmp` is exactly the comparison of the inner values,
and the unit tag has no effect on the comparison. -/
theorem scalar_eq_ord_compare_inner_only {α : Type} [LinearOrder α]
    {U1 U2 : Type} (v w : α) :
    ((Length.new v : Length α U1) = Length.new w ↔ v = w) ∧
    (Length.eqv (Length.new v : Length α U1) (Length.new w) ↔ v = w) ∧
    Length.cmp (Length.new v : Length α U1) (Length.new w) = compare v w ∧
    Length.cmp (Length.new v : Length α U1) (Length.new w)
        = Length.cmp (Length.new v : Length α U2) (Length.new w) ∧
    ((Width.new v : Width α U1) = Width.new w ↔ v = w) ∧
    (Width.eqv (Width.new v : Width α U1) (Width.new w) ↔ v = w) ∧
    Width.cmp (Width.new v : Width α U1) (Width.new w) = compare v w ∧
    Width.cmp (Width.new v : Width α U1) (Width.new w)
        = Width.cmp (Width.new v : Width α U2) (Width.new w) ∧
    ((Height.new v : Height α U1) = Height.new w ↔ v = w) ∧
    (Height.eqv (Height.new v : Height α U1) (Height.new w) ↔ v = w) ∧
    Height.cmp (Height.new v : Height α U1) (Height.new w) = compare v w ∧
    Height.cmp (Height.new v : Height α U1) (Height.new w)
        = Height.cmp (Height.new v : Height α U2) (Height.new w) ∧
    ((Position.new v : Position α U1) = Position.new w ↔ v = w) ∧
    (Position.eqv (Position.new v : Position α U1) (Position.new w) ↔ v = w) ∧
    Position.cmp (Position.new v : Position α U1) (Position.new w) = compare v w ∧
    Position.cmp (Position.new v : Position α U1) (Position.new w)
        = Position.cmp (Position.new v : Position α U2) (Position.new w) ∧
    ((PosX.new v : PosX α U1) = PosX.new w ↔ v = w) ∧
    (PosX.eqv (PosX.new v : PosX α U1) (PosX.new w) ↔ v = w) ∧
    PosX.cmp (PosX.new v : PosX α U1) (PosX.new w) = compare v w ∧
    PosX.cmp (PosX.new v : PosX α U1) (PosX.new w)
        = PosX.cmp (PosX.new v : PosX α U2) (PosX.new w) ∧
    ((PosY.new v : PosY α U1) = PosY.new w ↔ v = w) ∧
    (PosY.eqv (PosY.new v : PosY α U1) (PosY.new w) ↔ v = w) ∧
    PosY.cmp (PosY.new v : PosY α U1) (PosY.new w) = compare v w ∧
    PosY.cmp (PosY.new v : PosY α U1) (PosY.new w)
        = PosY.cmp (PosY.new v : PosY α U2) (PosY.new w) :=
  ⟨by simp [Length.new], Iff.rfl, rfl, rfl,
   by simp [Width.new], Iff.rfl, rfl, rfl,
   by simp [Height.new], Iff.rfl, rfl, rfl,
   by simp [Position.new], Iff.rfl, rfl, rfl,
   by simp [PosX.new], Iff.rfl, rfl, rfl,
   by simp [PosY.new], Iff.rfl, rfl, rfl⟩

/-- C9: for each concrete rich-capability transform — `IdentityTransform`
(with an additive representation conversion), `Translation`, `ScaleFactor`
and `AxisAlignedMatrixTransform` — transforming a rectangle commutes with
taking its corner. -/
theorem transform_rect_commutes_with_corner {α β : Type}
    [CommRing α] [CommRing β] {U V : Type}
    (f : α → β) (hf : ∀ a b : α, f (a + b) = f a + f b)
    (t : Translation α U) (sf : ScaleFactor α U V)
    (m : AxisAlignedMatrixTransform α U V) (r : Rect α U) :
    ((IdentityTransform.toAxisAligned f : AxisAlignedTransform α U β V).transform_rect r).corner
        = (IdentityTransform.toAxisAligned f : AxisAlignedTransform α U β V).transform_point
            r.corner ∧
    (t.toAxisAligned.transform_rect r).corner
        = t.toAxisAligned.transform_point r.corner ∧
    (sf.toAxisAligned.transform_rect r).corner
        = sf.toAxisAligned.transform_point r.corner ∧
    (m.toAxisAligned.transform_rect r).corner
        = m.toAxisAligned.transform_point r.corner := by
  refine ⟨?_, ?_, ?_, ?_⟩
  · ext
    · simp only [IdentityTransform.toAxisAligned, AxisAlignedTransform.mkDefaults,
        Rect.corner, Point.add_size, PosX.add_width, PosY.add_height,
        PosX.new, PosY.new, Width.new, Height.new,
        PosX.into_inner, PosY.into_inner, Width.into_inner, Height.into_inner]
      exact (hf _ _).symm
    · simp only [IdentityTransform.toAxisAligned, AxisAlignedTransform.mkDefaults,
        Rect.corner, Point.add_size, PosX.add_width, PosY.add_height,
        PosX.new, PosY.new, Width.new, Height.new,
        PosX.into_inner, PosY.into_inner, Width.into_inner, Height.into_inner]
      exact (hf _ _).symm
  · ext
    · simp only [Translation.toAxisAligned, AxisAlignedTransform.mkDefaults,
        Rect.corner, Point.add_size, PosX.add_width, PosY.add_height,
        PosX.new, PosY.new, PosX.into_inner, PosY.into_inner,
        Width.into_inner, Height.into_inner]
      ring
    · simp only [Translation.toAxisAligned, AxisAlignedTransform.mkDefaults,
        Rect.corner, Point.add_size, PosX.add_width, PosY.add_height,
        PosX.new, PosY.new, PosX.into_inner, PosY.into_inner,
        Width.into_inner, Height.into_inner]
      ring
  · ext
    · simp only [ScaleFactor.toAxisAligned, AxisAlignedTransform.mkDefaults,
        Rect.corner, Point.add_size, PosX.add_width, PosY.add_height,
        PosX.new, PosY.new, Width.new, Height.new,
        PosX.into_inner, PosY.into_inner, Width.into_inner, Height.into_inner]
      ring
    · simp only [ScaleFactor.toAxisAligned, AxisAlignedTransform.mkDefaults,
        Rect.corner, Point.add_size, PosX.add_width, PosY.add_height,
        PosX.new, PosY.new, Width.new, Height.new,
        PosX.into_inner, PosY.into_inner, Width.into_inner, Height.into_inner]
      ring
  · ext
    · simp only [AxisAlignedMatrixTransform.toAxisAligned,
        Rect.corner, Point.add_size, PosX.add_width, PosY.add_height,
        PosX.new, PosY.new, Width.new, Height.new,
        PosX.into_inner, PosY.into_inner, Width.into_inner, Height.into_inner]
      ring
    · simp only [AxisAlignedMatrixTransform.toAxisAligned,
        Rect.corner, Point.add_size, PosX.add_width, PosY.add_height,
        PosX.new, PosY.new, Width.new, Height.new,
        PosX.into_inner, PosY.into_inner, Width.into_inner, Height.into_inner]
      ring

/-- C9 witness: the commuting of rect transformation with `corner` at
concrete ℚ inputs, for the identity conversion, a translation by (3,5), a
scale by 2 and an axis-aligned matrix transform (2,3,7,11), on the
rectangle with origin (1,2) and size (4,6). -/
theorem transform_rect_commutes_with_corner_witness :
    ((IdentityTransform.toAxisAligned idConv :
          AxisAlignedTransform ℚ Unit ℚ Bool).transform_rect exampleRect).corner
        = (IdentityTransform.toAxisAligned idConv :
          AxisAlignedTransform ℚ Unit ℚ Bool).transform_point exampleRect.corner ∧
    (exampleTranslation.toAxisAligned.transform_rect exampleRect).corner
        = exampleTranslation.toAxisAligned.transform_point exampleRect.corner ∧
    (exampleScale.toAxisAligned.transform_rect exampleRect).corner
        = exampleScale.toAxisAligned.transform_point exampleRect.corner ∧
    (exampleAAMT.toAxisAligned.transform_rect exampleRect).corner
        = exampleAAMT.toAxisAligned.transform_point exampleRect.corner :=
  transform_rect_commutes_with_corner idConv (fun _ _ => rfl)
    exampleTranslation exampleScale exampleAAMT exampleRect

/-- C10: `Rect::from_points(o, p)` stores the origin `o` unchanged and the
size `p - o` (component-wise differences of the coordinates), and its
`corner()` equals `p`. -/
theorem from_points_origin_size_corner {α : Type} [AddCommGroup α]
    {U : Type} (o p : Point α U) :
    (Rect.from_points o p).origin = o ∧
    (Rect.from_points o p).size = p.sub o ∧
    (Rect.from_points o p).size.width.val = p.x.val - o.x.val ∧
    (Rect.from_points o p).size.height.val = p.y.val - o.y.val ∧
    (Rect.from_points o p).corner = p := by
  refine ⟨rfl, rfl, rfl, rfl, ?_⟩
  ext
  · simp only [Rect.from_points, Rect.corner, Point.add_size, Point.sub,
      PosX.add_width, PosX.sub, PosX.new, Width.new,
      PosX.into_inner, Width.into_inner]
    abel
  · simp only [Rect.from_points, Rect.corner, Point.add_size, Point.sub,
      PosY.add_height, PosY.sub, PosY.new, Height.new,
      PosY.into_inner, Height.into_inner]
    abel

end Planar
